import Mathlib

/-!
Verification of the Quote Shaper (backend/main.py).

The handler `get_stock_data` fetches daily price rows and ticker metadata
from an external provider, shapes the rows into candlestick records, and
computes a KPI summary.  We embed the handler shallowly:

* Python floats are modelled as exact rationals (ℚ); `round(x, 2)` is
  modelled by `round2`, rounding to the nearest multiple of 1/100 with
  ties to even, which is the documented behaviour of the Python `round` builtin
  on the exact value of its float argument.
* `int(x)` on a float is truncation toward zero, modelled by `truncQ`.
* The two external calls that can raise (`ticker.history` and
  `ticker.info`) are passed in as `Except String _` values: `.error e`
  means the call raised an exception whose message is `e`.
* `HTTPException(status_code, detail)` becomes the `.httpError` case of
  `HandlerResult`; the `except HTTPException: raise` /
  `except Exception as e: raise HTTPException(500, str(e))` pattern is
  reflected in the control flow of `get_stock_data` below.
* Dates are carried as their formatted ISO date strings.
-/

namespace FinDash

/-- Truncation of a rational toward zero, the behaviour of Python `int()`
applied to a (non-integral) numeric value. -/
def truncQ (q : ℚ) : ℤ := if q < 0 then ⌈q⌉ else ⌊q⌋

/-- Rounding of a rational to the nearest integer with ties going to the
even neighbour: the behaviour of Python `round` on the exact value of a
float. -/
def rne (q : ℚ) : ℤ :=
  if q - ⌊q⌋ < 1/2 then ⌊q⌋
  else if 1/2 < q - ⌊q⌋ then ⌊q⌋ + 1
  else if ⌊q⌋ % 2 = 0 then ⌊q⌋ else ⌊q⌋ + 1

/-- Python `round(x, 2)`: round to the nearest multiple of 1/100, ties to
even hundredths. -/
def round2 (q : ℚ) : ℚ := (rne (q * 100) : ℚ) / 100

/-- One raw per-day price row as delivered by the provider.  The `date`
field already carries the ISO rendering of the row index
(`index.strftime` in the source). -/
structure RawRow where
  date : String
  «open» : ℚ
  high : ℚ
  low : ℚ
  close : ℚ
  volume : ℚ
  deriving Repr, DecidableEq

/-- One candlestick record of the response (`candlestick_data` entries in
the source). -/
structure Candle where
  date : String
  «open» : ℚ
  high : ℚ
  low : ℚ
  close : ℚ
  volume : ℤ
  deriving Repr, DecidableEq

/-- Ticker metadata (`ticker.info`): `info.get` on a missing key yields
`None`, hence the `Option` fields. -/
structure Info where
  fiftyTwoWeekHigh : Option ℚ
  fiftyTwoWeekLow : Option ℚ
  marketCap : Option ℚ
  deriving Repr, DecidableEq

/-- The KPI summary dictionary built by the handler. -/
structure Kpis where
  current_price : ℚ
  daily_change : ℚ
  daily_change_pct : ℚ
  fifty_two_week_high : Option ℚ
  fifty_two_week_low : Option ℚ
  avg_volume : ℤ
  market_cap : Option ℚ
  deriving Repr, DecidableEq

/-- The request body of `POST /api/stock-data`; the two dates are carried
as their formatted ISO date strings. -/
structure StockRequest where
  ticker : String
  start_date : String
  end_date : String
  deriving Repr, DecidableEq

/-- The successful (HTTP 200) response body. -/
structure SuccessResponse where
  ticker : String
  data : List Candle
  kpis : Kpis
  deriving Repr, DecidableEq

/-- Outcome of one invocation of the handler: a 200 body, or an
`HTTPException` with a status code and a detail message. -/
inductive HandlerResult where
  | ok (resp : SuccessResponse)
  | httpError (status : ℕ) (detail : String)
  deriving Repr, DecidableEq

/-- Mapping of one raw row to a candlestick record (the body of the
`for index, row in df.iterrows()` loop). -/
def toCandle (r : RawRow) : Candle :=
  { date := r.date
    «open» := round2 r.«open»
    high := round2 r.high
    low := round2 r.low
    close := round2 r.close
    volume := truncQ r.volume }

/-- The candlestick list built from the raw rows, in iteration order. -/
def candlesticks (rows : List RawRow) : List Candle := rows.map toCandle

/-- Placeholder candlestick used to totalise the partial list indexing of
the source (`candlestick_data[-1]`, `candlestick_data[-2]`); every theorem
below only indexes within bounds, so the placeholder is never reached. -/
def dummyCandle : Candle := { date := "", «open» := 0, high := 0, low := 0, close := 0, volume := 0 }

/-- Placeholder raw row, used with `List.getD` in theorem statements. -/
def dummyRaw : RawRow := { date := "", «open» := 0, high := 0, low := 0, close := 0, volume := 0 }

/-- The source line `latest_close = candlestick_data[-1]["close"]`. -/
def currentPrice (cs : List Candle) : ℚ := (cs.getLastD dummyCandle).close

/-- The source line
`prev_close = candlestick_data[-2]["close"] if len(candlestick_data) >= 2 else latest_close`. -/
def prevClose (cs : List Candle) : ℚ :=
  if 2 ≤ cs.length then (cs.getD (cs.length - 2) dummyCandle).close else currentPrice cs

/-- The KPI block of the handler (source lines 61-76). -/
def computeKpis (cs : List Candle) (info : Info) : Kpis :=
  let latest_close := currentPrice cs
  let prev_close := prevClose cs
  let daily_change := round2 (latest_close - prev_close)
  let daily_change_pct := if prev_close ≠ 0 then round2 ((daily_change / prev_close) * 100) else 0
  let avg_volume := truncQ (((((cs.map (fun c => c.volume)).sum : ℤ)) : ℚ) / (cs.length : ℚ))
  { current_price := latest_close
    daily_change := daily_change
    daily_change_pct := daily_change_pct
    fifty_two_week_high := info.fiftyTwoWeekHigh
    fifty_two_week_low := info.fiftyTwoWeekLow
    avg_volume := avg_volume
    market_cap := info.marketCap }

/-- The 404 detail string of the source, with the requested ticker
interpolated verbatim. -/
def notFoundDetail (req : StockRequest) : String :=
  "No data found for ticker " ++ String.singleton (Char.ofNat 39) ++ req.ticker
    ++ String.singleton (Char.ofNat 39) ++ " in the specified date range"

/-- Python `str.upper()`, character-wise ASCII uppercasing. -/
def pyUpper (s : String) : String := ⟨s.data.map Char.toUpper⟩

/-- The handler `get_stock_data`.  `history` is the outcome of
`ticker.history(...)` (its row list, or the message of the raised exception)
and `info` the outcome of `ticker.info`.  All remaining computation is
pure and total, so the `except Exception` arm is reachable only from
those two calls; `except HTTPException: raise` re-raises the 404
untouched. -/
def get_stock_data (req : StockRequest) (history : Except String (List RawRow))
    (info : Except String Info) : HandlerResult :=
  match history with
  | .error e => .httpError 500 e
  | .ok rows =>
    if rows.isEmpty then
      .httpError 404 (notFoundDetail req)
    else
      let cs := candlesticks rows
      match info with
      | .error e => .httpError 500 e
      | .ok i =>
        .ok { ticker := pyUpper req.ticker, data := cs, kpis := computeKpis cs i }

/-- Specification-level rounding to two decimal places with the half-up
convention, as the claim words it: add one half of the last kept digit and
take the floor. -/
def roundHalfUp2 (q : ℚ) : ℚ := (⌊q * 100 + 1/2⌋ : ℚ) / 100

/-- Specification-level characterisation of rounding to two decimal
places with ties to even: `y` is a multiple of 1/100 at distance at most
1/200 from `x`, and in the tie case the chosen multiple is even (in
hundredths). -/
def IsRoundHalfEven2 (x y : ℚ) : Prop :=
  ∃ n : ℤ, y = (n : ℚ) / 100 ∧ |x - y| ≤ 1/200 ∧ (|x - y| = 1/200 → n % 2 = 0)

/-- Boolean test that the character list `n` is an initial segment of
`h`. -/
def strStarts : List Char → List Char → Bool
  | [], _ => true
  | _ :: _, [] => false
  | a :: as, b :: bs => a == b && strStarts as bs

/-- Boolean test that the character list `n` occurs contiguously inside
`h`; a string `s` is embedded in a message `m` when
`strHas s.data m.data = true`. -/
def strHas (n : List Char) : List Char → Bool
  | [] => n.isEmpty
  | c :: cs => strStarts n (c :: cs) || strHas n cs

/-! Helper lemmas. -/

theorem round2_zero : round2 0 = 0 := by
  norm_num [round2, rne]

theorem candlesticks_length (rows : List RawRow) :
    (candlesticks rows).length = rows.length := by
  simp [candlesticks]

theorem candlesticks_getD (rows : List RawRow) (i : ℕ) (hi : i < rows.length) :
    (candlesticks rows).getD i dummyCandle = toCandle (rows.getD i dummyRaw) := by
  simp [candlesticks, List.getD_eq_getElem?_getD, List.getElem?_map,
    List.getElem?_eq_getElem hi]

theorem truncQ_natCast (n : ℕ) : truncQ (n : ℚ) = n := by
  rw [truncQ, if_neg (not_lt.mpr (by positivity))]
  exact Int.floor_natCast n

/-- Claim C2: for every non-empty input row sequence the candlestick list
has the same length as the input and its `i`-th entry is derived from the
`i`-th input row, so input order is preserved. -/
theorem C2_length_and_order (rows : List RawRow) (i : ℕ) (hne : rows ≠ [])
    (hi : i < rows.length) :
    (candlesticks rows).length = rows.length ∧
    (candlesticks rows).getD i dummyCandle = toCandle (rows.getD i dummyRaw) :=
  ⟨candlesticks_length rows, candlesticks_getD rows i hi⟩

/-- Witness for C2 at a concrete two-row input. -/
theorem C2_witness :
    (candlesticks [⟨"2024-01-02", 100, 105, 99, 102, 1000⟩,
        ⟨"2024-01-03", 102, 108, 101, 107, 2000⟩]).length
      = [(⟨"2024-01-02", 100, 105, 99, 102, 1000⟩ : RawRow),
          ⟨"2024-01-03", 102, 108, 101, 107, 2000⟩].length ∧
    (candlesticks [⟨"2024-01-02", 100, 105, 99, 102, 1000⟩,
        ⟨"2024-01-03", 102, 108, 101, 107, 2000⟩]).getD 1 dummyCandle
      = toCandle ([(⟨"2024-01-02", 100, 105, 99, 102, 1000⟩ : RawRow),
          ⟨"2024-01-03", 102, 108, 101, 107, 2000⟩].getD 1 dummyRaw) :=
  C2_length_and_order _ 1 (List.cons_ne_nil _ _) (by simp)

/-- Claim C3: `previous_close` is the close of the second-to-last
candlestick when at least two records exist and `current_price` when
exactly one exists; `daily_change` is `current_price - previous_close`
rounded to two decimals; a single-row input yields `daily_change = 0` and
`daily_change_pct = 0`. -/
theorem C3_previous_close_and_daily_change (rows : List RawRow) (info : Info)
    (hne : rows ≠ []) :
    (2 ≤ rows.length →
      prevClose (candlesticks rows)
        = ((candlesticks rows).getD (rows.length - 2) dummyCandle).close) ∧
    (rows.length = 1 →
      prevClose (candlesticks rows) = currentPrice (candlesticks rows)) ∧
    (computeKpis (candlesticks rows) info).daily_change
      = round2 (currentPrice (candlesticks rows) - prevClose (candlesticks rows)) ∧
    (rows.length = 1 →
      (computeKpis (candlesticks rows) info).daily_change = 0 ∧
      (computeKpis (candlesticks rows) info).daily_change_pct = 0) := by
  refine ⟨?_, ?_, ?_, ?_⟩
  · intro h2
    rw [prevClose, candlesticks_length, if_pos h2]
  · intro h1
    rw [prevClose, candlesticks_length, if_neg (by omega)]
  · rfl
  · intro h1
    have hp : prevClose (candlesticks rows) = currentPrice (candlesticks rows) := by
      rw [prevClose, candlesticks_length, if_neg (by omega)]
    have hdc : (computeKpis (candlesticks rows) info).daily_change = 0 := by
      show round2 (currentPrice (candlesticks rows) - prevClose (candlesticks rows)) = 0
      rw [hp, sub_self, round2_zero]
    refine ⟨hdc, ?_⟩
    show (if prevClose (candlesticks rows) ≠ 0 then
        round2 (((computeKpis (candlesticks rows) info).daily_change
          / prevClose (candlesticks rows)) * 100) else 0) = 0
    rw [hdc]
    split
    · rw [zero_div, zero_mul, round2_zero]
    · rfl

/-- Witness for C3 at a concrete single-row input. -/
theorem C3_witness :
    (2 ≤ ([(⟨"2024-01-02", 100, 105, 99, 102, 1000⟩ : RawRow)] : List RawRow).length →
      prevClose (candlesticks [⟨"2024-01-02", 100, 105, 99, 102, 1000⟩])
        = ((candlesticks [⟨"2024-01-02", 100, 105, 99, 102, 1000⟩]).getD
            (([(⟨"2024-01-02", 100, 105, 99, 102, 1000⟩ : RawRow)] : List RawRow).length - 2)
            dummyCandle).close) ∧
    (([(⟨"2024-01-02", 100, 105, 99, 102, 1000⟩ : RawRow)] : List RawRow).length = 1 →
      prevClose (candlesticks [⟨"2024-01-02", 100, 105, 99, 102, 1000⟩])
        = currentPrice (candlesticks [⟨"2024-01-02", 100, 105, 99, 102, 1000⟩])) ∧
    (computeKpis (candlesticks [⟨"2024-01-02", 100, 105, 99, 102, 1000⟩])
        ⟨none, none, none⟩).daily_change
      = round2 (currentPrice (candlesticks [⟨"2024-01-02", 100, 105, 99, 102, 1000⟩])
          - prevClose (candlesticks [⟨"2024-01-02", 100, 105, 99, 102, 1000⟩])) ∧
    (([(⟨"2024-01-02", 100, 105, 99, 102, 1000⟩ : RawRow)] : List RawRow).length = 1 →
      (computeKpis (candlesticks [⟨"2024-01-02", 100, 105, 99, 102, 1000⟩])
          ⟨none, none, none⟩).daily_change = 0 ∧
      (computeKpis (candlesticks [⟨"2024-01-02", 100, 105, 99, 102, 1000⟩])
          ⟨none, none, none⟩).daily_change_pct = 0) :=
  C3_previous_close_and_daily_change _ _ (List.cons_ne_nil _ _)

/-- Claim C4: `daily_change_pct` is `(daily_change / previous_close) * 100`
rounded to two decimals when `previous_close` is nonzero and `0` when
`previous_close` is zero; the division is guarded, so in the embedding no
unguarded division by zero is performed. -/
theorem C4_pct_of_previous_close (rows : List RawRow) (info : Info)
    (hne : rows ≠ []) :
    (prevClose (candlesticks rows) ≠ 0 →
      (computeKpis (candlesticks rows) info).daily_change_pct
        = round2 (((computeKpis (candlesticks rows) info).daily_change
            / prevClose (candlesticks rows)) * 100)) ∧
    (prevClose (candlesticks rows) = 0 →
      (computeKpis (candlesticks rows) info).daily_change_pct = 0) := by
  constructor
  · intro h
    show (if prevClose (candlesticks rows) ≠ 0 then _ else _) = _
    rw [if_pos h]
    rfl
  · intro h
    show (if prevClose (candlesticks rows) ≠ 0 then _ else _) = _
    rw [if_neg (by simp [h])]

/-- Witness for C4 at a concrete single-row input with a nonzero close. -/
theorem C4_witness :
    (computeKpis (candlesticks [⟨"2024-01-02", 100, 105, 99, 102, 1000⟩])
        ⟨none, none, none⟩).daily_change_pct
      = round2 (((computeKpis (candlesticks [⟨"2024-01-02", 100, 105, 99, 102, 1000⟩])
            ⟨none, none, none⟩).daily_change
          / prevClose (candlesticks [⟨"2024-01-02", 100, 105, 99, 102, 1000⟩])) * 100) :=
  (C4_pct_of_previous_close _ _ (List.cons_ne_nil _ _)).1 (by
    norm_num [prevClose, currentPrice, candlesticks, toCandle, round2, rne])

/-- Claim C5: with non-negative integer input volumes, `avg_volume` is
the floor division of the sum of the candlestick volumes by their
count. -/
theorem C5_avg_volume_floor_division (rows : List RawRow) (info : Info)
    (hne : rows ≠ []) (hvol : ∀ r ∈ rows, ∃ n : ℕ, r.volume = (n : ℚ)) :
    (computeKpis (candlesticks rows) info).avg_volume
      = Int.fdiv ((candlesticks rows).map (fun c => c.volume)).sum
          ((candlesticks rows).length : ℤ) := by
  have hS0 : 0 ≤ ((candlesticks rows).map (fun c => c.volume)).sum := by
    apply List.sum_nonneg
    intro v hv
    simp only [candlesticks, List.map_map, List.mem_map, Function.comp] at hv
    obtain ⟨r, hr, rfl⟩ := hv
    obtain ⟨n, hn⟩ := hvol r hr
    simp only [toCandle, hn, truncQ_natCast]
    positivity
  show truncQ ((((((candlesticks rows).map (fun c => c.volume)).sum : ℤ)) : ℚ)
      / ((candlesticks rows).length : ℚ)) = _
  rw [truncQ, if_neg (not_lt.mpr (div_nonneg (by exact_mod_cast hS0) (by positivity)))]
  rw [Rat.floor_intCast_div_natCast]
  exact (Int.fdiv_eq_ediv _ (by positivity)).symm

/-- Witness for C5 at a concrete two-row input whose mean volume is not an
integer. -/
theorem C5_witness :
    (computeKpis (candlesticks [⟨"2024-01-02", 100, 105, 99, 102, 1000⟩,
        ⟨"2024-01-03", 102, 108, 101, 107, 2001⟩]) ⟨none, none, none⟩).avg_volume
      = Int.fdiv ((candlesticks [⟨"2024-01-02", 100, 105, 99, 102, 1000⟩,
          ⟨"2024-01-03", 102, 108, 101, 107, 2001⟩]).map (fun c => c.volume)).sum
          ((candlesticks [⟨"2024-01-02", 100, 105, 99, 102, 1000⟩,
            ⟨"2024-01-03", 102, 108, 101, 107, 2001⟩]).length : ℤ) :=
  C5_avg_volume_floor_division _ _ (List.cons_ne_nil _ _) (by
    intro r hr
    simp only [List.mem_cons, List.not_mem_nil, or_false] at hr
    rcases hr with rfl | rfl
    · exact ⟨1000, by norm_num⟩
    · exact ⟨2001, by norm_num⟩)

/-- Distance and parity facts for `rne`: the rounded value is within one
half of the argument, and an exact tie lands on an even integer. -/
theorem rne_dist (q : ℚ) :
    |q - (rne q : ℚ)| ≤ 1/2 ∧ (|q - (rne q : ℚ)| = 1/2 → rne q % 2 = 0) := by
  have h0 : (⌊q⌋ : ℚ) ≤ q := Int.floor_le q
  have h1 : q < ⌊q⌋ + 1 := Int.lt_floor_add_one q
  rw [rne]
  split
  · next hlt =>
    constructor
    · rw [abs_of_nonneg (by linarith)]
      linarith
    · intro habs
      rw [abs_of_nonneg (by linarith)] at habs
      linarith
  · next hge =>
    split
    · next hgt =>
      push_cast
      constructor
      · rw [abs_of_nonpos (by linarith)]
        linarith
      · intro habs
        rw [abs_of_nonpos (by linarith)] at habs
        linarith
    · next hle =>
      have htie : q - (⌊q⌋ : ℚ) = 1/2 := le_antisymm (by linarith) (by linarith)
      split
      · next heven =>
        refine ⟨?_, fun _ => heven⟩
        rw [abs_of_nonneg (by linarith)]
        linarith
      · next hodd =>
        push_cast
        refine ⟨?_, fun _ => by omega⟩
        rw [abs_of_nonpos (by linarith)]
        linarith

/-- Rounding through `round2` satisfies the half-to-even characterisation
at every rational. -/
theorem round2_is_half_even (x : ℚ) : IsRoundHalfEven2 x (round2 x) := by
  obtain ⟨hle, htie⟩ := rne_dist (x * 100)
  refine ⟨rne (x * 100), rfl, ?_, ?_⟩
  · have hdist : x - (rne (x * 100) : ℚ) / 100 = (x * 100 - (rne (x * 100) : ℚ)) / 100 := by
      ring
    rw [round2, hdist, abs_div, abs_of_pos (show (0:ℚ) < 100 by norm_num)]
    linarith
  · intro h
    apply htie
    have hdist : x - (rne (x * 100) : ℚ) / 100 = (x * 100 - (rne (x * 100) : ℚ)) / 100 := by
      ring
    rw [round2, hdist, abs_div, abs_of_pos (show (0:ℚ) < 100 by norm_num)] at h
    linarith

/-- Claim C6, counterexample: at raw price 1/8 = 0.125 the code rounds to
0.12 (ties to even) while the claimed half-up convention demands 0.13, so
the output open field differs from the half-up rounding of the input. -/
theorem C6_counterexample :
    (toCandle ⟨"2024-01-02", 1/8, 1/8, 1/8, 1/8, 100⟩).«open»
      ≠ roundHalfUp2 ((⟨"2024-01-02", 1/8, 1/8, 1/8, 1/8, 100⟩ : RawRow).«open») := by
  norm_num [toCandle, round2, rne, roundHalfUp2]

/-- Claim C6 as amended: each output price field is the input field
rounded to two decimals with ties to even (not half-up), and the output
volume is the integer-cast input volume. -/
theorem C6_rounded_fields (r : RawRow) :
    IsRoundHalfEven2 r.«open» (toCandle r).«open» ∧
    IsRoundHalfEven2 r.high (toCandle r).high ∧
    IsRoundHalfEven2 r.low (toCandle r).low ∧
    IsRoundHalfEven2 r.close (toCandle r).close ∧
    (toCandle r).volume = truncQ r.volume :=
  ⟨round2_is_half_even _, round2_is_half_even _, round2_is_half_even _,
    round2_is_half_even _, rfl⟩

/-- Witness for C6 at a concrete row with price 1/8. -/
theorem C6_witness :
    IsRoundHalfEven2 ((⟨"2024-01-02", 1/8, 105, 99, 102, 100⟩ : RawRow)).«open»
      (toCandle ⟨"2024-01-02", 1/8, 105, 99, 102, 100⟩).«open» ∧
    IsRoundHalfEven2 ((⟨"2024-01-02", 1/8, 105, 99, 102, 100⟩ : RawRow)).high
      (toCandle ⟨"2024-01-02", 1/8, 105, 99, 102, 100⟩).high ∧
    IsRoundHalfEven2 ((⟨"2024-01-02", 1/8, 105, 99, 102, 100⟩ : RawRow)).low
      (toCandle ⟨"2024-01-02", 1/8, 105, 99, 102, 100⟩).low ∧
    IsRoundHalfEven2 ((⟨"2024-01-02", 1/8, 105, 99, 102, 100⟩ : RawRow)).close
      (toCandle ⟨"2024-01-02", 1/8, 105, 99, 102, 100⟩).close ∧
    (toCandle ⟨"2024-01-02", 1/8, 105, 99, 102, 100⟩).volume
      = truncQ ((⟨"2024-01-02", 1/8, 105, 99, 102, 100⟩ : RawRow)).volume :=
  C6_rounded_fields _

/-- Claim C7: the three metadata KPI fields are copied verbatim from the
metadata (hence null when it is absent), while the four computed KPI
fields do not depend on the metadata at all. -/
theorem C7_metadata_passthrough (rows : List RawRow) (info other : Info)
    (hne : rows ≠ [])
    (hmeta : info.fiftyTwoWeekHigh = none ∧ info.fiftyTwoWeekLow = none ∧
      info.marketCap = none) :
    (computeKpis (candlesticks rows) info).fifty_two_week_high = none ∧
    (computeKpis (candlesticks rows) info).fifty_two_week_low = none ∧
    (computeKpis (candlesticks rows) info).market_cap = none ∧
    (computeKpis (candlesticks rows) other).fifty_two_week_high
      = other.fiftyTwoWeekHigh ∧
    (computeKpis (candlesticks rows) other).fifty_two_week_low
      = other.fiftyTwoWeekLow ∧
    (computeKpis (candlesticks rows) other).market_cap = other.marketCap ∧
    (computeKpis (candlesticks rows) other).current_price
      = (computeKpis (candlesticks rows) info).current_price ∧
    (computeKpis (candlesticks rows) other).daily_change
      = (computeKpis (candlesticks rows) info).daily_change ∧
    (computeKpis (candlesticks rows) other).daily_change_pct
      = (computeKpis (candlesticks rows) info).daily_change_pct ∧
    (computeKpis (candlesticks rows) other).avg_volume
      = (computeKpis (candlesticks rows) info).avg_volume :=
  ⟨hmeta.1, hmeta.2.1, hmeta.2.2, rfl, rfl, rfl, rfl, rfl, rfl, rfl⟩

/-- Witness for C7 at a concrete row list, absent metadata, and a second
metadata record with all three fields present. -/
theorem C7_witness :
    (computeKpis (candlesticks [⟨"2024-01-02", 100, 105, 99, 102, 1000⟩])
        ⟨none, none, none⟩).fifty_two_week_high = none ∧
    (computeKpis (candlesticks [⟨"2024-01-02", 100, 105, 99, 102, 1000⟩])
        ⟨none, none, none⟩).fifty_two_week_low = none ∧
    (computeKpis (candlesticks [⟨"2024-01-02", 100, 105, 99, 102, 1000⟩])
        ⟨none, none, none⟩).market_cap = none ∧
    (computeKpis (candlesticks [⟨"2024-01-02", 100, 105, 99, 102, 1000⟩])
        ⟨some 190, some 120, some 3000000⟩).fifty_two_week_high
      = (⟨some 190, some 120, some 3000000⟩ : Info).fiftyTwoWeekHigh ∧
    (computeKpis (candlesticks [⟨"2024-01-02", 100, 105, 99, 102, 1000⟩])
        ⟨some 190, some 120, some 3000000⟩).fifty_two_week_low
      = (⟨some 190, some 120, some 3000000⟩ : Info).fiftyTwoWeekLow ∧
    (computeKpis (candlesticks [⟨"2024-01-02", 100, 105, 99, 102, 1000⟩])
        ⟨some 190, some 120, some 3000000⟩).market_cap
      = (⟨some 190, some 120, some 3000000⟩ : Info).marketCap ∧
    (computeKpis (candlesticks [⟨"2024-01-02", 100, 105, 99, 102, 1000⟩])
        ⟨some 190, some 120, some 3000000⟩).current_price
      = (computeKpis (candlesticks [⟨"2024-01-02", 100, 105, 99, 102, 1000⟩])
          ⟨none, none, none⟩).current_price ∧
    (computeKpis (candlesticks [⟨"2024-01-02", 100, 105, 99, 102, 1000⟩])
        ⟨some 190, some 120, some 3000000⟩).daily_change
      = (computeKpis (candlesticks [⟨"2024-01-02", 100, 105, 99, 102, 1000⟩])
          ⟨none, none, none⟩).daily_change ∧
    (computeKpis (candlesticks [⟨"2024-01-02", 100, 105, 99, 102, 1000⟩])
        ⟨some 190, some 120, some 3000000⟩).daily_change_pct
      = (computeKpis (candlesticks [⟨"2024-01-02", 100, 105, 99, 102, 1000⟩])
          ⟨none, none, none⟩).daily_change_pct ∧
    (computeKpis (candlesticks [⟨"2024-01-02", 100, 105, 99, 102, 1000⟩])
        ⟨some 190, some 120, some 3000000⟩).avg_volume
      = (computeKpis (candlesticks [⟨"2024-01-02", 100, 105, 99, 102, 1000⟩])
          ⟨none, none, none⟩).avg_volume :=
  C7_metadata_passthrough _ _ _ (List.cons_ne_nil _ _) ⟨rfl, rfl, rfl⟩

/-- Character list `n` starts every list of the form `n ++ s`. -/
theorem strStarts_self_append (n s : List Char) : strStarts n (n ++ s) = true := by
  induction n with
  | nil => rfl
  | cons a as ih => simp [strStarts, ih]

/-- Character list `n` occurs inside any list of the form
`p ++ (n ++ s)`. -/
theorem strHas_of_split (p n s : List Char) : strHas n (p ++ (n ++ s)) = true := by
  induction p with
  | nil =>
    cases h : n ++ s with
    | nil =>
      obtain ⟨hn, _⟩ := List.append_eq_nil.mp h
      simp [strHas, hn]
    | cons c cs =>
      show (strStarts n (c :: cs) || strHas n cs) = true
      rw [← h, strStarts_self_append, Bool.true_or]
  | cons c p ih =>
    rw [List.cons_append]
    show (strStarts n (c :: (p ++ (n ++ s))) || strHas n (p ++ (n ++ s))) = true
    rw [ih, Bool.or_true]

/-- Claim C1: the handler yields HTTP 404 with the fixed detail string
exactly when the provider returned an empty row set; any exception from
the provider calls is surfaced as HTTP 500 carrying the underlying
message; the 404 is never re-wrapped as a 500. -/
theorem C1_error_taxonomy (req : StockRequest)
    (history : Except String (List RawRow)) (info : Except String Info) :
    ((∃ d, get_stock_data req history info = .httpError 404 d) ↔
      history = .ok []) ∧
    (history = .ok [] →
      get_stock_data req history info = .httpError 404 (notFoundDetail req)) ∧
    (∀ e, history = .error e →
      get_stock_data req history info = .httpError 500 e) ∧
    (∀ rows e, history = .ok rows → rows ≠ [] → info = .error e →
      get_stock_data req history info = .httpError 500 e) ∧
    (∀ s d, get_stock_data req history info = .httpError s d → s ≠ 404 →
      s = 500 ∧ (history = .error d ∨
        ∃ rows, history = .ok rows ∧ rows ≠ [] ∧ info = .error d)) := by
  rcases history with e | rows
  · refine ⟨⟨fun ⟨d, hd⟩ => by simp [get_stock_data] at hd, fun h => by simp at h⟩,
      fun h => by simp at h, fun e2 he => ?_, fun rows e2 h => by simp at h,
      fun s d hsd hne => ?_⟩
    · cases he
      rfl
    · simp only [get_stock_data, HandlerResult.httpError.injEq] at hsd
      exact ⟨hsd.1.symm, Or.inl (by rw [hsd.2])⟩
  · by_cases hrows : rows = []
    · subst hrows
      refine ⟨⟨fun _ => rfl, fun _ => ⟨notFoundDetail req, rfl⟩⟩,
        fun _ => rfl, fun e2 h => by simp at h,
        fun rows2 e2 h hne2 => by cases h; exact absurd rfl hne2,
        fun s d hsd hne => ?_⟩
      simp only [get_stock_data, List.isEmpty_nil, if_true,
        HandlerResult.httpError.injEq] at hsd
      exact absurd hsd.1.symm hne
    · have hempty : rows.isEmpty = false := by
        simp [List.isEmpty_eq_false, hrows]
      rcases info with e | i
      · refine ⟨⟨fun ⟨d, hd⟩ => ?_, fun h => by cases h; exact absurd rfl hrows⟩,
          fun h => by cases h; exact absurd rfl hrows,
          fun e2 h => by simp at h,
          fun rows2 e2 h hne2 he => by
            cases h; cases he; simp [get_stock_data, hempty],
          fun s d hsd hne => ?_⟩
        · simp only [get_stock_data, hempty, Bool.false_eq_true, if_false,
            HandlerResult.httpError.injEq] at hd
          omega
        · simp only [get_stock_data, hempty, Bool.false_eq_true, if_false,
            HandlerResult.httpError.injEq] at hsd
          exact ⟨hsd.1.symm, Or.inr ⟨rows, rfl, hrows, by rw [hsd.2]⟩⟩
      · refine ⟨⟨fun ⟨d, hd⟩ => ?_, fun h => by cases h; exact absurd rfl hrows⟩,
          fun h => by cases h; exact absurd rfl hrows,
          fun e2 h => by simp at h,
          fun rows2 e2 h hne2 he => by simp at he,
          fun s d hsd hne => ?_⟩
        · simp only [get_stock_data, hempty, Bool.false_eq_true, if_false] at hd
          exact HandlerResult.noConfusion hd
        · simp only [get_stock_data, hempty, Bool.false_eq_true, if_false] at hsd
          exact HandlerResult.noConfusion hsd

/-- Witness for C1: a concrete request whose provider result is an empty
row list produces the 404 with the fixed detail string. -/
theorem C1_witness :
    get_stock_data ⟨"MSFT", "2024-01-01", "2024-01-31"⟩ (.ok []) (.ok ⟨none, none, none⟩)
      = .httpError 404 (notFoundDetail ⟨"MSFT", "2024-01-01", "2024-01-31"⟩) :=
  (C1_error_taxonomy ⟨"MSFT", "2024-01-01", "2024-01-31"⟩ (.ok [])
    (.ok ⟨none, none, none⟩)).2.1 rfl

/-- The requested ticker occurs verbatim inside the 404 detail
message. -/
theorem ticker_in_detail (req : StockRequest) :
    strHas req.ticker.data (notFoundDetail req).data = true := by
  have hsplit : (notFoundDetail req).data
      = ("No data found for ticker " ++ String.singleton (Char.ofNat 39)).data
        ++ (req.ticker.data
          ++ (String.singleton (Char.ofNat 39) ++ " in the specified date range").data) := by
    simp [notFoundDetail, String.data_append, List.append_assoc]
  rw [hsplit]
  exact strHas_of_split _ _ _

/-- Claim C8, counterexample: for a concrete request with an empty row
set, the 404 detail message embeds the ticker but embeds neither the
requested start date nor the requested end date. -/
theorem C8_counterexample :
    get_stock_data ⟨"AAPL", "2024-01-01", "2024-02-01"⟩ (.ok []) (.ok ⟨none, none, none⟩)
      = .httpError 404 (notFoundDetail ⟨"AAPL", "2024-01-01", "2024-02-01"⟩) ∧
    strHas ("2024-01-01" : String).data
      (notFoundDetail ⟨"AAPL", "2024-01-01", "2024-02-01"⟩).data = false ∧
    strHas ("2024-02-01" : String).data
      (notFoundDetail ⟨"AAPL", "2024-01-01", "2024-02-01"⟩).data = false ∧
    strHas ("AAPL" : String).data
      (notFoundDetail ⟨"AAPL", "2024-01-01", "2024-02-01"⟩).data = true := by
  refine ⟨rfl, ?_, ?_, ?_⟩ <;> decide

/-- Claim C8 as amended: on an empty row set the handler fails with the
404 whose detail embeds the requested ticker; the date range is referred
to only by the fixed words of the message, not by the requested dates. -/
theorem C8_amended_message (req : StockRequest)
    (history : Except String (List RawRow)) (info : Except String Info)
    (hempty : history = .ok ([] : List RawRow)) :
    get_stock_data req history info = .httpError 404 (notFoundDetail req) ∧
    strHas req.ticker.data (notFoundDetail req).data = true := by
  subst hempty
  exact ⟨rfl, ticker_in_detail req⟩

/-- Witness for the amended C8 at a concrete lowercase request. -/
theorem C8_witness :
    get_stock_data ⟨"tsla", "2024-03-01", "2024-03-31"⟩ (.ok []) (.ok ⟨none, none, none⟩)
      = .httpError 404 (notFoundDetail ⟨"tsla", "2024-03-01", "2024-03-31"⟩) ∧
    strHas ("tsla" : String).data
      (notFoundDetail ⟨"tsla", "2024-03-01", "2024-03-31"⟩).data = true :=
  C8_amended_message _ _ _ rfl

/-- Claim C9: the 404 detail embeds the ticker exactly as supplied, the
200 body carries the uppercased ticker, and uppercasing is not the
identity on a lowercase ticker, so the two can differ. -/
theorem C9_ticker_casing (req : StockRequest) (rows : List RawRow) (i : Info)
    (hne : rows ≠ []) :
    strHas req.ticker.data (notFoundDetail req).data = true ∧
    get_stock_data req (.ok rows) (.ok i)
      = .ok ⟨pyUpper req.ticker, candlesticks rows,
          computeKpis (candlesticks rows) i⟩ ∧
    pyUpper ("aapl" : String) = "AAPL" ∧ ("AAPL" : String) ≠ "aapl" := by
  refine ⟨ticker_in_detail req, ?_, by decide, by decide⟩
  have hempty : rows.isEmpty = false := by
    simp [List.isEmpty_eq_false, hne]
  simp only [get_stock_data, hempty, Bool.false_eq_true, if_false]

/-- Witness for C9 at a concrete lowercase request with one row. -/
theorem C9_witness :
    strHas ((⟨"aapl", "2024-01-01", "2024-01-31"⟩ : StockRequest)).ticker.data
      (notFoundDetail ⟨"aapl", "2024-01-01", "2024-01-31"⟩).data = true ∧
    get_stock_data ⟨"aapl", "2024-01-01", "2024-01-31"⟩
        (.ok [⟨"2024-01-02", 100, 105, 99, 102, 1000⟩]) (.ok ⟨none, none, none⟩)
      = .ok ⟨pyUpper ((⟨"aapl", "2024-01-01", "2024-01-31"⟩ : StockRequest)).ticker,
          candlesticks [⟨"2024-01-02", 100, 105, 99, 102, 1000⟩],
          computeKpis (candlesticks [⟨"2024-01-02", 100, 105, 99, 102, 1000⟩])
            ⟨none, none, none⟩⟩ ∧
    pyUpper ("aapl" : String) = "AAPL" ∧ ("AAPL" : String) ≠ "aapl" :=
  C9_ticker_casing _ _ _ (List.cons_ne_nil _ _)

/-- Claim C10: the zero guard of `daily_change_pct` tests the rounded
previous close: whenever the second-to-last raw close is nonzero but
rounds to zero at two decimals, the percentage is 0. -/
theorem C10_guard_uses_rounded (rows : List RawRow) (info : Info)
    (h2 : 2 ≤ rows.length)
    (hraw : (rows.getD (rows.length - 2) dummyRaw).close ≠ 0)
    (hround : round2 ((rows.getD (rows.length - 2) dummyRaw).close) = 0) :
    (computeKpis (candlesticks rows) info).daily_change_pct = 0 := by
  have hp : prevClose (candlesticks rows) = 0 := by
    rw [prevClose, candlesticks_length, if_pos h2,
      candlesticks_getD rows (rows.length - 2) (by omega)]
    exact hround
  show (if prevClose (candlesticks rows) ≠ 0 then _ else _) = _
  rw [if_neg (by simp [hp])]

/-- Witness for C10: a two-row input whose first close is 1/250 = 0.004,
which is nonzero but rounds to 0.00. -/
theorem C10_witness :
    (computeKpis (candlesticks [⟨"2024-01-02", 1, 1, 1, 1/250, 100⟩,
        ⟨"2024-01-03", 1, 1, 1, 5, 200⟩]) ⟨none, none, none⟩).daily_change_pct = 0 :=
  C10_guard_uses_rounded _ _ (by simp) (by norm_num [List.getD])
    (by norm_num [List.getD, round2, rne])

end FinDash
